import Mathlib

/-
Shallow embedding of `octodns_bunny/__init__.py` (class `BunnyClient`).

The client is a thin wrapper over an HTTP API.  We model:
  * JSON-ish payload values (`PVal`) and payload dictionaries as association
    lists with unique keys, mirroring Python `dict` semantics (`dictGet`,
    `dictSet`, `dictPop` follow `d.get`, `d[k] = v`, `d.pop(k, None)`);
  * the exception hierarchy (`BunnyError`): `Unauthorized` and `NotFound`
    are `BunnyClientException` subclasses in the source, while
    `raise_for_status` raises the HTTP library error (`requests.HTTPError`),
    which is NOT part of the client exception hierarchy — we keep the
    distinction as a constructor `HTTPError`;
  * the network as an oracle `Net : Request → Response`; each client
    operation returns its result, the final zone cache (`self._zones`) and
    the ordered list of HTTP requests it issued;
  * the unbounded pagination loop of `_cache_zones` with explicit fuel
    (the Python loop has no bound; theorems either fix a terminating
    oracle or hypothesise enough fuel).

Python truthiness (`if not self._zones`, `if not raw_type`,
`if not zone_id`) is modelled exactly: empty dict / `None` / empty string /
zero are falsy.
-/

namespace Bunny

/-- A payload value: enough of Python/JSON values to distinguish strings,
integers and `None`, which is what the client code inspects. -/
inductive PVal where
  | vStr (s : String)
  | vInt (n : Int)
  | vNone
deriving DecidableEq, Repr

/-- A record payload: a Python dict modelled as an association list
(unique keys in any dict the caller builds). -/
abbrev RecordData := List (String × PVal)

/-- The `self._zones` cache: zone name to internal zone id. -/
abbrev Zones := List (String × Int)

/-- Python `d.get(k)` returning `none` for a missing key (first match). -/
def dictGet {α : Type} : List (String × α) → String → Option α
  | [], _ => none
  | (k', v) :: rest, k => if k' = k then some v else dictGet rest k

/-- Python `d[k] = v`: overwrite in place if present, else append
(preserves dict insertion order). -/
def dictSet {α : Type} : List (String × α) → String → α → List (String × α)
  | [], k, v => [(k, v)]
  | (k', v') :: rest, k, v =>
    if k' = k then (k, v) :: rest else (k', v') :: dictSet rest k v

/-- Python `d.pop(k, None)`: remove the entry for `k` if present. -/
def dictPop {α : Type} : List (String × α) → String → List (String × α)
  | [], _ => []
  | (k', v') :: rest, k => if k' = k then rest else (k', v') :: dictPop rest k

/-- Python `d.get(k)` where an absent key and a stored `None` are
indistinguishable (both give `None`). -/
def pyGet (d : RecordData) (k : String) : PVal :=
  (dictGet d k).getD PVal.vNone

/-- Python truthiness of a payload value. -/
def pyTruthy : PVal → Bool
  | .vStr s => s ≠ ""
  | .vInt n => n ≠ 0
  | .vNone => false

/-- Model of `BunnyClient.RECORD_TYPES`: symbolic record type to Bunny integer code.
Codes 5, 6, 7, 11 are proprietary/discontinued and commented out in the
source, hence absent here. -/
def RECORD_TYPES : String → Option Int
  | "A" => some 0
  | "AAAA" => some 1
  | "CNAME" => some 2
  | "TXT" => some 3
  | "MX" => some 4
  | "SRV" => some 8
  | "CAA" => some 9
  | "PTR" => some 10
  | "NS" => some 12
  | _ => none

/-- Model of `self.RECORD_TYPES.get(raw_type)`: a non-string key never matches the
string keys of the dict. -/
def recordTypesGet : PVal → Option Int
  | .vStr s => RECORD_TYPES s
  | _ => none

/-- The errors the client can raise.  `Unauthorized`, `NotFound` and
`ClientException` are `BunnyClientException` (a `ProviderException`) in the
source; `HTTPError` is the `requests` library error raised by
`r.raise_for_status()` and is outside that hierarchy. -/
inductive BunnyError where
  | Unauthorized
  | NotFound
  | HTTPError (status : Nat)
  | ClientException (msg : String)
deriving DecidableEq, Repr

/-- Whether an error is (an instance of) `BunnyClientException`. -/
def BunnyError.isBunnyClientException : BunnyError → Bool
  | .HTTPError _ => false
  | _ => true

/-- Whether a result is a client-side validation error
(a bare `BunnyClientException` with a message). -/
def isValidationError {α : Type} : Except BunnyError α → Bool
  | .error (.ClientException _) => true
  | _ => false

/-- Model of `BunnyClient._handle_record_data(record_data, update)`.
On update: a `Name` or `Type` present with a non-`None` value raises; then
any `None`-valued `Name`/`Type` keys are popped.  On create: a falsy
`Type` raises; an unknown symbolic type raises; otherwise the symbolic
type is overwritten by its integer code.  Returns the (mutated) dict. -/
def handle_record_data (record_data : RecordData) (update : Bool) :
    Except BunnyError RecordData :=
  let raw_type := pyGet record_data "Type"
  if update then
    if pyGet record_data "Name" ≠ PVal.vNone then
      .error (.ClientException "Existing record name cannot be updated.")
    else if raw_type ≠ PVal.vNone then
      .error (.ClientException "Existing record type cannot be updated.")
    else
      .ok (dictPop (dictPop record_data "Name") "Type")
  else
    if ¬ pyTruthy raw_type then
      .error (.ClientException "No resource record type specified.")
    else
      match recordTypesGet raw_type with
      | none => .error (.ClientException "Unsupported resource record type")
      | some t => .ok (dictSet record_data "Type" (PVal.vInt t))

/-- An HTTP request as issued by `BunnyClient._request`:
method, path, optional `page` query parameter, optional JSON body. -/
structure Request where
  method : String
  path : String
  page : Option Nat
  body : Option RecordData
deriving DecidableEq, Repr

/-- An HTTP response: status plus the JSON fields the client reads
(`Items`, `HasMoreItems` for listings; `Id` for zone objects). -/
structure Response where
  status : Nat
  jsonItems : List (String × Int)
  jsonHasMoreItems : Bool
  jsonId : Int
deriving DecidableEq, Repr

/-- The provider, as an oracle from requests to responses. -/
abbrev Net := Request → Response

/-- Model of `BunnyClient._request`: 401 raises `Unauthorized`, 404 raises
`NotFound`, any other 4xx/5xx raises the HTTP library status error via
`r.raise_for_status()`; anything else is returned. -/
def doRequest (net : Net) (req : Request) : Except BunnyError Response :=
  let r := net req
  if r.status = 401 then .error .Unauthorized
  else if r.status = 404 then .error .NotFound
  else if 400 ≤ r.status ∧ r.status < 600 then .error (.HTTPError r.status)
  else .ok r

/-- The listing request `GET /dnszone?page=N`. -/
def listingReq (page : Nat) : Request :=
  { method := "GET", path := "/dnszone", page := some page, body := none }

/-- Path of `GET /dnszone/{zone_id}`. -/
def zonePath (zid : Int) : String := s!"/dnszone/{zid}"

/-- Path `/dnszone/{zone_id}/records`. -/
def recordsPath (zid : Int) : String := s!"/dnszone/{zid}/records"

/-- Path `/dnszone/{zone_id}/records/{record_id}`. -/
def recordPath (zid : Int) (rid : Int) : String :=
  s!"/dnszone/{zid}/records/{rid}"

/-- Result of a client operation: the returned value or raised error, the
final `self._zones` cache, and the HTTP requests issued, in order. -/
structure Outcome (α : Type) where
  result : Except BunnyError α
  zones : Zones
  reqs : List Request

/-- Result of a record operation; additionally carries the caller's
payload dict after the call (the source mutates it in place). -/
structure RecOutcome where
  result : Except BunnyError Response
  zones : Zones
  reqs : List Request
  payload : RecordData

/-- Model of `BunnyClient._cache_zones`: page through `GET /dnszone?page=N`,
inserting each item's `(Domain, Id)` into the cache, until
`HasMoreItems` is not `True`.  Items already fetched stay in the cache
even if a later page request raises.  `fuel` bounds the unbounded Python
loop. -/
def cache_zones (net : Net) : Nat → Nat → Zones → Outcome Unit
  | 0, _, zones => ⟨.error (.ClientException "fuel exhausted"), zones, []⟩
  | fuel + 1, page, zones =>
    let req := listingReq page
    match doRequest net req with
    | .error e => ⟨.error e, zones, [req]⟩
    | .ok r =>
      let zones' := r.jsonItems.foldl (fun zs di => dictSet zs di.1 di.2) zones
      if ¬ r.jsonHasMoreItems then ⟨.ok (), zones', [req]⟩
      else
        let o := cache_zones net fuel (page + 1) zones'
        ⟨o.result, o.zones, req :: o.reqs⟩

/-- Model of `BunnyClient._get_zone_id`: populate the cache if it is empty (Python
`if not self._zones` is emptiness), then `self._zones.get(zone_name)`;
a falsy result (`None` or id `0`) raises `NotFound`. -/
def get_zone_id (net : Net) (fuel : Nat) (st : Zones) (zone_name : String) :
    Outcome Int :=
  let afterCache : Outcome Unit :=
    if st = [] then cache_zones net fuel 1 st else ⟨.ok (), st, []⟩
  match afterCache.result with
  | .error e => ⟨.error e, afterCache.zones, afterCache.reqs⟩
  | .ok _ =>
    match dictGet afterCache.zones zone_name with
    | none => ⟨.error .NotFound, afterCache.zones, afterCache.reqs⟩
    | some zid =>
      if zid = 0 then ⟨.error .NotFound, afterCache.zones, afterCache.reqs⟩
      else ⟨.ok zid, afterCache.zones, afterCache.reqs⟩

/-- Model of `BunnyClient.zones()`: populate the cache if empty, return the list of
cached zone names (`list(self._zones)` is the keys in insertion order). -/
def zones (net : Net) (fuel : Nat) (st : Zones) : Outcome (List String) :=
  if st = [] then
    let o := cache_zones net fuel 1 st
    match o.result with
    | .error e => ⟨.error e, o.zones, o.reqs⟩
    | .ok _ => ⟨.ok (o.zones.map Prod.fst), o.zones, o.reqs⟩
  else ⟨.ok (st.map Prod.fst), st, []⟩

/-- Model of `BunnyClient.zone(zone_name)`: resolve the id via the cache, then
`GET /dnszone/{zone_id}`. -/
def zone (net : Net) (fuel : Nat) (st : Zones) (zone_name : String) :
    Outcome Response :=
  let o := get_zone_id net fuel st zone_name
  match o.result with
  | .error e => ⟨.error e, o.zones, o.reqs⟩
  | .ok zid =>
    let req : Request :=
      { method := "GET", path := zonePath zid, page := none, body := none }
    ⟨doRequest net req, o.zones, o.reqs ++ [req]⟩

/-- Model of `BunnyClient.zone_create(zone_name)`: `POST /dnszone` with
`{'Domain': zone_name}`; on success insert the returned `Id` into the
cache (incremental `_update_zones_cache`, no reload). -/
def zone_create (net : Net) (st : Zones) (zone_name : String) :
    Outcome Response :=
  let req : Request :=
    { method := "POST", path := "/dnszone", page := none,
      body := some [("Domain", PVal.vStr zone_name)] }
  match doRequest net req with
  | .error e => ⟨.error e, st, [req]⟩
  | .ok r => ⟨.ok r, dictSet st zone_name r.jsonId, [req]⟩

/-- Model of `BunnyClient.record_create(zone_name, record_data)`: resolve the zone
id, validate/transform the payload, `PUT /dnszone/{id}/records`. -/
def record_create (net : Net) (fuel : Nat) (st : Zones) (zone_name : String)
    (record_data : RecordData) : RecOutcome :=
  let o := get_zone_id net fuel st zone_name
  match o.result with
  | .error e => ⟨.error e, o.zones, o.reqs, record_data⟩
  | .ok zid =>
    match handle_record_data record_data false with
    | .error e => ⟨.error e, o.zones, o.reqs, record_data⟩
    | .ok rd =>
      let req : Request :=
        { method := "PUT", path := recordsPath zid, page := none,
          body := some rd }
      ⟨doRequest net req, o.zones, o.reqs ++ [req], rd⟩

/-- Model of `BunnyClient.record_update(zone_name, record_id, record_data)`:
resolve the zone id, validate the payload (update mode),
`POST /dnszone/{id}/records/{record_id}`. -/
def record_update (net : Net) (fuel : Nat) (st : Zones) (zone_name : String)
    (record_id : Int) (record_data : RecordData) : RecOutcome :=
  let o := get_zone_id net fuel st zone_name
  match o.result with
  | .error e => ⟨.error e, o.zones, o.reqs, record_data⟩
  | .ok zid =>
    match handle_record_data record_data true with
    | .error e => ⟨.error e, o.zones, o.reqs, record_data⟩
    | .ok rd =>
      let req : Request :=
        { method := "POST", path := recordPath zid record_id, page := none,
          body := some rd }
      ⟨doRequest net req, o.zones, o.reqs ++ [req], rd⟩

/-- Model of `BunnyClient.record_delete(zone_name, record_id)`: resolve the zone
id, `DELETE /dnszone/{id}/records/{record_id}`. -/
def record_delete (net : Net) (fuel : Nat) (st : Zones) (zone_name : String)
    (record_id : Int) : Outcome Response :=
  let o := get_zone_id net fuel st zone_name
  match o.result with
  | .error e => ⟨.error e, o.zones, o.reqs⟩
  | .ok zid =>
    let req : Request :=
      { method := "DELETE", path := recordPath zid record_id, page := none,
        body := none }
    ⟨doRequest net req, o.zones, o.reqs ++ [req]⟩

/-- Model of `BunnyClient.clear_zones_cache()`: reset the cache to empty. -/
def clear_zones_cache (_st : Zones) : Zones := []

/-! ### Concrete provider oracles used in the theorems below -/

/-- A benign 200 response: one zone `z.com` with id 1. -/
def respOk : Response :=
  { status := 200, jsonItems := [("z.com", 1)], jsonHasMoreItems := false,
    jsonId := 1 }

/-- A provider that answers every request with `respOk`. -/
def netOk : Net := fun _ => respOk

/-- A provider with zero zones: the listing returns an empty item list. -/
def netNoZones : Net := fun _ =>
  { status := 200, jsonItems := [], jsonHasMoreItems := false, jsonId := 1 }

/-- A provider answering every request with the given status. -/
def netConst (s : Nat) : Net := fun _ =>
  { status := s, jsonItems := [("z.com", 1)], jsonHasMoreItems := false,
    jsonId := 1 }

/-- A two-page listing provider: page 1 has items `p1` and
`HasMoreItems = true`; every other page has items `p2` and
`HasMoreItems = false`. -/
def net2 (p1 p2 : List (String × Int)) : Net := fun req =>
  if req.page = some 1 then
    { status := 200, jsonItems := p1, jsonHasMoreItems := true, jsonId := 0 }
  else
    { status := 200, jsonItems := p2, jsonHasMoreItems := false, jsonId := 0 }

/-- A provider that already hosts zone `other.com` (id 7) and accepts zone
creations, answering them with id 5. -/
def netC1 : Net := fun req =>
  if req.method = "POST" then
    { status := 200, jsonItems := [], jsonHasMoreItems := false, jsonId := 5 }
  else
    { status := 200, jsonItems := [("other.com", 7)],
      jsonHasMoreItems := false, jsonId := 7 }

/-- A provider whose zone-creation response carries `Id = 0`. -/
def netZeroId : Net := fun req =>
  if req.method = "POST" then
    { status := 200, jsonItems := [], jsonHasMoreItems := false, jsonId := 0 }
  else
    { status := 200, jsonItems := [("e.com", 3)], jsonHasMoreItems := false,
      jsonId := 3 }

/-- A populated one-zone cache used as a concrete state. -/
def st1 : Zones := [("z.com", 1)]

/-- The request issued by `zone_create`:
`POST /dnszone` with body `{'Domain': zone_name}`. -/
def createReq (zone_name : String) : Request :=
  { method := "POST", path := "/dnszone", page := none,
    body := some [("Domain", PVal.vStr zone_name)] }

/-- The zone-detail request `GET /dnszone/{zid}` issued by `zone`. -/
def detailReq (zid : Int) : Request :=
  { method := "GET", path := zonePath zid, page := none, body := none }

/-- The response `netC1` gives to a zone creation. -/
def respC1Create : Response :=
  { status := 200, jsonItems := [], jsonHasMoreItems := false, jsonId := 5 }

/-- The response `netZeroId` gives to a zone creation: `Id = 0`. -/
def respZeroIdCreate : Response :=
  { status := 200, jsonItems := [], jsonHasMoreItems := false, jsonId := 0 }

/-! ### Dictionary lemmas -/

theorem dictGet_dictSet_self {α : Type} (d : List (String × α)) (k : String)
    (v : α) : dictGet (dictSet d k v) k = some v := by
  induction d with
  | nil => simp [dictSet, dictGet]
  | cons hd tl ih =>
    obtain ⟨k', v'⟩ := hd
    by_cases h : k' = k <;> simp [dictSet, dictGet, h, ih]

theorem dictSet_ne_nil {α : Type} (d : List (String × α)) (k : String)
    (v : α) : dictSet d k v ≠ [] := by
  cases d with
  | nil => simp [dictSet]
  | cons hd tl =>
    obtain ⟨k', v'⟩ := hd
    by_cases h : k' = k <;> simp [dictSet, h]

theorem dictGet_eq_none_of_not_mem {α : Type} (d : List (String × α))
    (k : String) (h : k ∉ d.map Prod.fst) : dictGet d k = none := by
  induction d with
  | nil => rfl
  | cons hd tl ih =>
    obtain ⟨k', v'⟩ := hd
    simp only [List.map_cons, List.mem_cons, not_or] at h
    rw [dictGet, if_neg fun he => h.1 he.symm]
    exact ih h.2

theorem dictSet_append_of_none {α : Type} (d : List (String × α))
    (k : String) (v : α) (h : dictGet d k = none) :
    dictSet d k v = d ++ [(k, v)] := by
  induction d with
  | nil => rfl
  | cons hd tl ih =>
    obtain ⟨k', v'⟩ := hd
    by_cases hk : k' = k
    · rw [dictGet, if_pos hk] at h
      cases h
    · rw [dictGet, if_neg hk] at h
      simp [dictSet, hk, ih h]

theorem dictGet_append_of_none {α : Type} (d1 d2 : List (String × α))
    (k : String) (h : dictGet d1 k = none) :
    dictGet (d1 ++ d2) k = dictGet d2 k := by
  induction d1 with
  | nil => rfl
  | cons hd tl ih =>
    obtain ⟨k', v'⟩ := hd
    by_cases hk : k' = k
    · rw [dictGet, if_pos hk] at h
      cases h
    · rw [dictGet, if_neg hk] at h
      rw [List.cons_append, dictGet, if_neg hk]
      exact ih h

theorem foldl_dictSet_of_disjoint (items : List (String × Int)) (zs : Zones)
    (hd : ∀ k ∈ items.map Prod.fst, dictGet zs k = none)
    (hn : (items.map Prod.fst).Nodup) :
    items.foldl (fun a di => dictSet a di.1 di.2) zs = zs ++ items := by
  induction items generalizing zs with
  | nil => simp
  | cons it rest ih =>
    obtain ⟨k, v⟩ := it
    simp only [List.map_cons, List.nodup_cons] at hn
    simp only [List.foldl_cons]
    rw [dictSet_append_of_none zs k v (hd k (by simp))]
    rw [ih (zs ++ [(k, v)]) ?_ hn.2]
    · simp
    · intro k' hk'
      have hne : k ≠ k' := by
        intro he
        exact hn.1 (he ▸ hk')
      rw [dictGet_append_of_none _ _ _ (hd k' (by simp [hk']))]
      simp [dictGet, hne]

theorem dictGet_dictPop_self (d : RecordData) (k : String)
    (hn : (d.map Prod.fst).Nodup) : dictGet (dictPop d k) k = none := by
  induction d with
  | nil => rfl
  | cons hd tl ih =>
    obtain ⟨k', v'⟩ := hd
    simp only [List.map_cons, List.nodup_cons] at hn
    by_cases hk : k' = k
    · subst hk
      rw [dictPop, if_pos rfl]
      exact dictGet_eq_none_of_not_mem tl k' hn.1
    · rw [dictPop, if_neg hk, dictGet, if_neg hk]
      exact ih hn.2

theorem dictGet_dictPop_ne (d : RecordData) (kp k : String) (h : kp ≠ k) :
    dictGet (dictPop d kp) k = dictGet d k := by
  induction d with
  | nil => rfl
  | cons hd tl ih =>
    obtain ⟨ka, va⟩ := hd
    by_cases hka : ka = kp
    · subst hka
      rw [dictPop, if_pos rfl, dictGet, if_neg h]
    · rw [dictPop, if_neg hka]
      by_cases hk : ka = k <;> simp [dictGet, hk, ih]

/-! ### Client-level helper lemmas -/

theorem get_zone_id_hit (net : Net) (fuel : Nat) (st : Zones)
    (zone_name : String) (zid : Int) (h1 : st ≠ [])
    (h2 : dictGet st zone_name = some zid) (h3 : zid ≠ 0) :
    get_zone_id net fuel st zone_name = ⟨.ok zid, st, []⟩ := by
  simp [get_zone_id, h1, h2, h3]

theorem get_zone_id_miss (net : Net) (fuel : Nat) (st : Zones)
    (zone_name : String) (h1 : st ≠ [])
    (h2 : dictGet st zone_name = none) :
    get_zone_id net fuel st zone_name = ⟨.error .NotFound, st, []⟩ := by
  simp [get_zone_id, h1, h2]

theorem pyTruthy_of_recordTypesGet (v : PVal) (c : Int)
    (h : recordTypesGet v = some c) : pyTruthy v = true := by
  cases v with
  | vStr s =>
    rw [pyTruthy, decide_eq_true_eq]
    intro he
    subst he
    have hn : (none : Option Int) = some c := h
    cases hn
  | vInt n => cases h
  | vNone => cases h

theorem doRequest_netConst (s : Nat) (req : Request) :
    doRequest (netConst s) req =
      if s = 401 then .error .Unauthorized
      else if s = 404 then .error .NotFound
      else if 400 ≤ s ∧ s < 600 then .error (.HTTPError s)
      else .ok (netConst s req) := rfl

theorem zones_empty_eq (net : Net) (fuel : Nat) :
    zones net fuel [] =
      match (cache_zones net fuel 1 []).result with
      | .error e =>
        ⟨.error e, (cache_zones net fuel 1 []).zones,
          (cache_zones net fuel 1 []).reqs⟩
      | .ok _ =>
        ⟨.ok ((cache_zones net fuel 1 []).zones.map Prod.fst),
          (cache_zones net fuel 1 []).zones,
          (cache_zones net fuel 1 []).reqs⟩ := rfl

theorem cache_zones_succ (net : Net) (fuel page : Nat) (zs : Zones) :
    cache_zones net (fuel + 1) page zs =
      match doRequest net (listingReq page) with
      | .error e => ⟨.error e, zs, [listingReq page]⟩
      | .ok r =>
        let zs' := r.jsonItems.foldl (fun a di => dictSet a di.1 di.2) zs
        if ¬ r.jsonHasMoreItems then ⟨.ok (), zs', [listingReq page]⟩
        else
          let o := cache_zones net fuel (page + 1) zs'
          ⟨o.result, o.zones, listingReq page :: o.reqs⟩ := rfl

theorem zone_create_eq (net : Net) (st : Zones) (zone_name : String) :
    zone_create net st zone_name =
      match doRequest net (createReq zone_name) with
      | .error e => ⟨.error e, st, [createReq zone_name]⟩
      | .ok r =>
        ⟨.ok r, dictSet st zone_name r.jsonId, [createReq zone_name]⟩ := rfl

theorem dictGet_of_pyGet (d : RecordData) (k : String) (v : PVal)
    (h : pyGet d k = v) (hv : v ≠ PVal.vNone) : dictGet d k = some v := by
  unfold pyGet at h
  cases hg : dictGet d k with
  | none =>
    rw [hg] at h
    exact absurd h.symm hv
  | some w =>
    rw [hg] at h
    simp only [Option.getD_some] at h
    rw [h]

/-! ### Claims -/

/-- Claim C6: with a populated cache, every zone name absent from the cache
makes get zone, record create, record update and record delete raise
Not-Found with zero HTTP requests issued. -/
theorem c6_missing_zone_not_found_no_request (net : Net) (fuel : Nat)
    (st : Zones) (zone_name : String) (rid : Int) (rd : RecordData)
    (h1 : st ≠ []) (h2 : dictGet st zone_name = none) :
    zone net fuel st zone_name = ⟨.error .NotFound, st, []⟩ ∧
    record_create net fuel st zone_name rd = ⟨.error .NotFound, st, [], rd⟩ ∧
    record_update net fuel st zone_name rid rd =
      ⟨.error .NotFound, st, [], rd⟩ ∧
    record_delete net fuel st zone_name rid = ⟨.error .NotFound, st, []⟩ := by
  have hg := get_zone_id_miss net fuel st zone_name h1 h2
  refine ⟨?_, ?_, ?_, ?_⟩ <;>
    simp [zone, record_create, record_update, record_delete, hg]

/-- Witness for claim C6 at a concrete cache and zone name. -/
theorem c6_missing_zone_not_found_no_request_witness :
    zone netOk 5 st1 "missing.example" = ⟨.error .NotFound, st1, []⟩ ∧
    record_create netOk 5 st1 "missing.example" [] =
      ⟨.error .NotFound, st1, [], []⟩ ∧
    record_update netOk 5 st1 "missing.example" 1 [] =
      ⟨.error .NotFound, st1, [], []⟩ ∧
    record_delete netOk 5 st1 "missing.example" 1 =
      ⟨.error .NotFound, st1, []⟩ :=
  c6_missing_zone_not_found_no_request netOk 5 st1 "missing.example" 1 []
    (by decide) (by decide)

/-- Claim C8: a record-create whose payload carries symbolic type "A"
issues exactly the record-creation request, whose body carries the
integer Type code 0 (present, not omitted). -/
theorem c8_type_a_serializes_zero (net : Net) (fuel : Nat) (st : Zones)
    (zone_name : String) (zid : Int) (rd : RecordData)
    (h1 : st ≠ []) (h2 : dictGet st zone_name = some zid) (h3 : zid ≠ 0)
    (h4 : pyGet rd "Type" = PVal.vStr "A") :
    (record_create net fuel st zone_name rd).reqs =
      [{ method := "PUT", path := recordsPath zid, page := none,
         body := some (dictSet rd "Type" (PVal.vInt 0)) }] ∧
    dictGet (dictSet rd "Type" (PVal.vInt 0)) "Type" = some (PVal.vInt 0) := by
  have hg := get_zone_id_hit net fuel st zone_name zid h1 h2 h3
  constructor
  · simp [record_create, hg, handle_record_data, h4, pyTruthy,
      recordTypesGet, RECORD_TYPES]
  · exact dictGet_dictSet_self rd "Type" (PVal.vInt 0)

/-- Witness for claim C8 at a concrete payload. -/
theorem c8_type_a_serializes_zero_witness :
    (record_create netOk 5 st1 "z.com"
        [("Type", PVal.vStr "A"), ("Value", PVal.vStr "1.2.3.4")]).reqs =
      [{ method := "PUT", path := recordsPath 1, page := none,
         body := some (dictSet [("Type", PVal.vStr "A"),
           ("Value", PVal.vStr "1.2.3.4")] "Type" (PVal.vInt 0)) }] ∧
    dictGet (dictSet [("Type", PVal.vStr "A"), ("Value", PVal.vStr "1.2.3.4")]
        "Type" (PVal.vInt 0)) "Type" = some (PVal.vInt 0) :=
  c8_type_a_serializes_zero netOk 5 st1 "z.com" 1
    [("Type", PVal.vStr "A"), ("Value", PVal.vStr "1.2.3.4")]
    (by decide) (by decide) (by decide) (by decide)

/-- Claim C2 as stated is false: an update payload carrying a `Name` key
whose value is `None` is NOT rejected — the key is silently removed and
the HTTP request is issued. -/
theorem c2_none_valued_keys_not_rejected :
    (record_update netOk 5 st1 "z.com" 1
        [("Name", PVal.vNone), ("Ttl", PVal.vInt 300)]).result = .ok respOk ∧
    (record_update netOk 5 st1 "z.com" 1
        [("Name", PVal.vNone), ("Ttl", PVal.vInt 300)]).reqs =
      [{ method := "POST", path := recordPath 1 1, page := none,
         body := some [("Ttl", PVal.vInt 300)] }] :=
  ⟨rfl, rfl⟩

/-- Claim C2 (amended): with the zone resolvable from the populated cache,
an update payload carrying a `Name` or `Type` key with a non-None value
raises a client-side validation error and issues zero HTTP requests. -/
theorem c2_update_forbidden_fields_validation (net : Net) (fuel : Nat)
    (st : Zones) (zone_name : String) (zid rid : Int) (rd : RecordData)
    (h1 : st ≠ []) (h2 : dictGet st zone_name = some zid) (h3 : zid ≠ 0)
    (h4 : pyGet rd "Name" ≠ PVal.vNone ∨ pyGet rd "Type" ≠ PVal.vNone) :
    isValidationError (record_update net fuel st zone_name rid rd).result =
      true ∧
    (record_update net fuel st zone_name rid rd).reqs = [] := by
  have hg := get_zone_id_hit net fuel st zone_name zid h1 h2 h3
  by_cases hname : pyGet rd "Name" = PVal.vNone
  · have htype : pyGet rd "Type" ≠ PVal.vNone :=
      h4.resolve_left fun hc => hc hname
    constructor <;>
      simp [record_update, hg, handle_record_data, hname, htype,
        isValidationError]
  · constructor <;>
      simp [record_update, hg, handle_record_data, hname, isValidationError]

/-- Witness for the amended claim C2 at a concrete payload with a
non-None `Name` value. -/
theorem c2_update_forbidden_fields_validation_witness :
    isValidationError (record_update netOk 5 st1 "z.com" 1
        [("Name", PVal.vStr "www")]).result = true ∧
    (record_update netOk 5 st1 "z.com" 1 [("Name", PVal.vStr "www")]).reqs =
      [] :=
  c2_update_forbidden_fields_validation netOk 5 st1 "z.com" 1 1
    [("Name", PVal.vStr "www")] (by decide) (by decide) (by decide)
    (Or.inl (by decide))

/-- Claim C3 as stated is false on the cache-state side: with an empty
cache, a record-create with unrecognized type raises the validation error
but only after issuing the cache-population listing request. -/
theorem c3_empty_cache_listing_issued :
    isValidationError (record_create netOk 5 [] "z.com"
        [("Type", PVal.vStr "BOGUS")]).result = true ∧
    (record_create netOk 5 [] "z.com" [("Type", PVal.vStr "BOGUS")]).reqs =
      [listingReq 1] :=
  ⟨rfl, rfl⟩

/-- Claim C3 (amended): with the zone resolvable from the populated cache,
a record-create whose payload carries a falsy or unrecognized type raises
a client-side validation error and issues zero HTTP requests. -/
theorem c3_create_invalid_type_validation (net : Net) (fuel : Nat)
    (st : Zones) (zone_name : String) (zid : Int) (rd : RecordData)
    (h1 : st ≠ []) (h2 : dictGet st zone_name = some zid) (h3 : zid ≠ 0)
    (h4 : pyTruthy (pyGet rd "Type") = false ∨
      recordTypesGet (pyGet rd "Type") = none) :
    isValidationError (record_create net fuel st zone_name rd).result =
      true ∧
    (record_create net fuel st zone_name rd).reqs = [] := by
  have hg := get_zone_id_hit net fuel st zone_name zid h1 h2 h3
  by_cases ht : pyTruthy (pyGet rd "Type") = true
  · have hnone : recordTypesGet (pyGet rd "Type") = none := by
      rcases h4 with h | h
      · rw [ht] at h
        cases h
      · exact h
    constructor <;>
      simp [record_create, hg, handle_record_data, ht, hnone,
        isValidationError]
  · constructor <;>
      simp [record_create, hg, handle_record_data, ht, isValidationError]

/-- Witness for the amended claim C3 at a concrete payload with an
unrecognized symbolic type. -/
theorem c3_create_invalid_type_validation_witness :
    isValidationError (record_create netOk 5 st1 "z.com"
        [("Type", PVal.vStr "BOGUS")]).result = true ∧
    (record_create netOk 5 st1 "z.com" [("Type", PVal.vStr "BOGUS")]).reqs =
      [] :=
  c3_create_invalid_type_validation netOk 5 st1 "z.com" 1
    [("Type", PVal.vStr "BOGUS")] (by decide) (by decide) (by decide)
    (Or.inr (by decide))

/-- Claim C4 as stated is false: with a provider reporting zero zones the
cache stays empty after the first list-zones call, so the second call
issues the listing request again. -/
theorem c4_empty_provider_repopulates :
    (zones netNoZones 5 []).reqs = [listingReq 1] ∧
    (zones netNoZones 5 ((zones netNoZones 5 []).zones)).reqs =
      [listingReq 1] :=
  ⟨rfl, rfl⟩

/-- Claim C4 (amended): if the first list-zones call succeeds and leaves a
non-empty cache, a second call with no intervening write issues no HTTP
request and returns the same zone names from the cache. -/
theorem c4_cache_population_idempotent (net : Net) (fuel : Nat)
    (l : List String)
    (h1 : (zones net fuel []).result = .ok l)
    (h2 : (zones net fuel []).zones ≠ []) :
    (zones net fuel ((zones net fuel []).zones)).result = .ok l ∧
    (zones net fuel ((zones net fuel []).zones)).zones =
      (zones net fuel []).zones ∧
    (zones net fuel ((zones net fuel []).zones)).reqs = [] := by
  rcases hr : (cache_zones net fuel 1 []).result with e | u
  · rw [zones_empty_eq, hr] at h1
    cases h1
  · rw [zones_empty_eq, hr] at h1 h2 ⊢
    have hl : (cache_zones net fuel 1 []).zones.map Prod.fst = l := by
      simpa using h1
    simp only at h2 ⊢
    rw [zones, if_neg h2]
    exact ⟨by rw [hl], rfl, rfl⟩

/-- Witness for the amended claim C4 at a concrete one-zone provider. -/
theorem c4_cache_population_idempotent_witness :
    (zones netOk 5 ((zones netOk 5 []).zones)).result = .ok ["z.com"] ∧
    (zones netOk 5 ((zones netOk 5 []).zones)).zones =
      (zones netOk 5 []).zones ∧
    (zones netOk 5 ((zones netOk 5 []).zones)).reqs = [] :=
  c4_cache_population_idempotent netOk 5 ["z.com"] rfl (by decide)

/-- Claim C7: against a two-page listing (page 1 `HasMoreItems = true`
with items `p1`, page 2 `HasMoreItems = false` with items `p2`, domains
pairwise distinct), list zones issues exactly the two listing requests
with incrementing page numbers and the final cache is the union of the
(Domain, Id) pairs of both pages. -/
theorem c7_pagination_two_pages (p1 p2 : List (String × Int)) (f : Nat)
    (hn : ((p1 ++ p2).map Prod.fst).Nodup) :
    (zones (net2 p1 p2) (f + 2) []).reqs = [listingReq 1, listingReq 2] ∧
    (zones (net2 p1 p2) (f + 2) []).zones = p1 ++ p2 ∧
    (zones (net2 p1 p2) (f + 2) []).result =
      .ok ((p1 ++ p2).map Prod.fst) := by
  have step2 : ∀ zs : Zones, cache_zones (net2 p1 p2) (f + 1) 2 zs =
      ⟨.ok (), p2.foldl (fun a di => dictSet a di.1 di.2) zs,
        [listingReq 2]⟩ := by
    intro zs
    rw [cache_zones_succ]
    simp [doRequest, net2, listingReq]
  have step1 : cache_zones (net2 p1 p2) (f + 2) 1 [] =
      ⟨.ok (), p2.foldl (fun a di => dictSet a di.1 di.2)
          (p1.foldl (fun a di => dictSet a di.1 di.2) []),
        [listingReq 1, listingReq 2]⟩ := by
    rw [show f + 2 = f + 1 + 1 from rfl, cache_zones_succ]
    simp [doRequest, net2, listingReq, step2]
  have hfold : (p1 ++ p2).foldl (fun a di => dictSet a di.1 di.2)
      ([] : Zones) = p1 ++ p2 := by
    have h := foldl_dictSet_of_disjoint (p1 ++ p2) [] (fun k _ => rfl) hn
    simpa using h
  have hz : p2.foldl (fun a di => dictSet a di.1 di.2)
      (p1.foldl (fun a di => dictSet a di.1 di.2) []) = p1 ++ p2 := by
    rw [← List.foldl_append]
    exact hfold
  rw [zones_empty_eq, step1, hz]
  exact ⟨rfl, rfl, rfl⟩

/-- Witness for claim C7 at two concrete one-item pages. -/
theorem c7_pagination_two_pages_witness :
    (zones (net2 [("a.com", 1)] [("b.com", 2)]) 2 []).reqs =
      [listingReq 1, listingReq 2] ∧
    (zones (net2 [("a.com", 1)] [("b.com", 2)]) 2 []).zones =
      [("a.com", 1), ("b.com", 2)] ∧
    (zones (net2 [("a.com", 1)] [("b.com", 2)]) 2 []).result =
      .ok ["a.com", "b.com"] :=
  c7_pagination_two_pages [("a.com", 1)] [("b.com", 2)] 0 (by decide)

/-- Claim C9 as stated is false when the provider assigns id 0: the
created zone is cached under a falsy id, so the immediately following
get zone raises Not-Found and issues no request at all. -/
theorem c9_zero_id_counterexample :
    (zone_create netZeroId [] "e.com").result = .ok respZeroIdCreate ∧
    (zone netZeroId 5 ((zone_create netZeroId [] "e.com").zones)
        "e.com").result = .error .NotFound ∧
    (zone netZeroId 5 ((zone_create netZeroId [] "e.com").zones)
        "e.com").reqs = [] :=
  ⟨rfl, rfl, rfl⟩

/-- Claim C9 (amended): after a successful create zone returning a nonzero
id, an immediately following get zone of the same name resolves the id
from the cache and issues only the zone-detail request — no listing
call. -/
theorem c9_create_then_get_uses_cache (net : Net) (fuel : Nat) (st : Zones)
    (zone_name : String) (r : Response)
    (h1 : (zone_create net st zone_name).result = .ok r)
    (h2 : r.jsonId ≠ 0) :
    (zone net fuel ((zone_create net st zone_name).zones) zone_name).reqs =
      [detailReq r.jsonId] ∧
    (zone net fuel ((zone_create net st zone_name).zones) zone_name).result =
      doRequest net (detailReq r.jsonId) := by
  rcases hdr : doRequest net (createReq zone_name) with e | r'
  · rw [zone_create_eq, hdr] at h1
    cases h1
  · rw [zone_create_eq, hdr] at h1 ⊢
    simp only [Except.ok.injEq] at h1
    subst h1
    simp only
    have hg := get_zone_id_hit net fuel (dictSet st zone_name r'.jsonId)
      zone_name r'.jsonId (dictSet_ne_nil st zone_name r'.jsonId)
      (dictGet_dictSet_self st zone_name r'.jsonId) h2
    constructor <;> simp [zone, hg, detailReq]

/-- Witness for the amended claim C9 at a concrete provider. -/
theorem c9_create_then_get_uses_cache_witness :
    (zone netC1 5 ((zone_create netC1 st1 "new.com").zones) "new.com").reqs =
      [detailReq 5] ∧
    (zone netC1 5 ((zone_create netC1 st1 "new.com").zones)
        "new.com").result = doRequest netC1 (detailReq 5) :=
  c9_create_then_get_uses_cache netC1 5 st1 "new.com" respC1Create
    rfl (by decide)

/-- Claim C1: the spec invariant (cache empty or a complete snapshot) is
the intent but the code violates it.  Against a provider hosting zone
`other.com` (which a fresh list-zones call reports), creating `new.com`
while the cache is empty leaves a one-entry cache that get zone and list
zones treat as complete: `other.com` is reported Not-Found with zero HTTP
requests and list zones returns only `new.com`. -/
theorem c1_create_on_empty_cache_masks_provider_zones :
    (zones netC1 5 []).result = .ok ["other.com"] ∧
    (zone_create netC1 [] "new.com").result = .ok respC1Create ∧
    (zone netC1 5 ((zone_create netC1 [] "new.com").zones)
        "other.com").result = .error .NotFound ∧
    (zone netC1 5 ((zone_create netC1 [] "new.com").zones)
        "other.com").reqs = [] ∧
    (zones netC1 5 ((zone_create netC1 [] "new.com").zones)).result =
      .ok ["new.com"] :=
  ⟨rfl, rfl, rfl, rfl, rfl⟩

/-- Claim C10: record create and record update mutate the caller's payload
dict: a successful create overwrites the symbolic `Type` value with its
integer code, and an update removes None-valued `Name`/`Type` keys; in
both described scenarios the dict differs from the one passed in. -/
theorem c10_payload_mutation (net : Net) (fuel : Nat) (st : Zones)
    (zone_name : String) (zid rid : Int) (rdc rdu : RecordData)
    (s : String) (c : Int)
    (h1 : st ≠ []) (h2 : dictGet st zone_name = some zid) (h3 : zid ≠ 0)
    (hc1 : pyGet rdc "Type" = PVal.vStr s) (hc2 : RECORD_TYPES s = some c)
    (hu1 : pyGet rdu "Name" = PVal.vNone) (hu2 : pyGet rdu "Type" = PVal.vNone)
    (hu3 : dictGet rdu "Name" = some PVal.vNone)
    (hu4 : (rdu.map Prod.fst).Nodup) :
    (record_create net fuel st zone_name rdc).payload =
      dictSet rdc "Type" (PVal.vInt c) ∧
    (record_create net fuel st zone_name rdc).payload ≠ rdc ∧
    (record_update net fuel st zone_name rid rdu).payload =
      dictPop (dictPop rdu "Name") "Type" ∧
    dictGet (record_update net fuel st zone_name rid rdu).payload "Name" =
      none ∧
    (record_update net fuel st zone_name rid rdu).payload ≠ rdu := by
  have hg := get_zone_id_hit net fuel st zone_name zid h1 h2 h3
  have hrt : recordTypesGet (pyGet rdc "Type") = some c := by
    rw [hc1]
    simpa [recordTypesGet] using hc2
  have htr : pyTruthy (pyGet rdc "Type") = true :=
    pyTruthy_of_recordTypesGet _ c hrt
  have hhc : handle_record_data rdc false =
      .ok (dictSet rdc "Type" (PVal.vInt c)) := by
    simp [handle_record_data, htr, hrt]
  have hhu : handle_record_data rdu true =
      .ok (dictPop (dictPop rdu "Name") "Type") := by
    simp [handle_record_data, hu1, hu2]
  have hpc : (record_create net fuel st zone_name rdc).payload =
      dictSet rdc "Type" (PVal.vInt c) := by
    simp [record_create, hg, hhc]
  have hpu : (record_update net fuel st zone_name rid rdu).payload =
      dictPop (dictPop rdu "Name") "Type" := by
    simp [record_update, hg, hhu]
  have hT : dictGet rdc "Type" = some (PVal.vStr s) :=
    dictGet_of_pyGet rdc "Type" _ hc1 (by simp)
  have hnone : dictGet (dictPop (dictPop rdu "Name") "Type") "Name" = none := by
    rw [dictGet_dictPop_ne _ "Type" "Name" (by decide)]
    exact dictGet_dictPop_self rdu "Name" hu4
  refine ⟨hpc, ?_, hpu, ?_, ?_⟩
  · rw [hpc]
    intro heq
    have hself := dictGet_dictSet_self rdc "Type" (PVal.vInt c)
    rw [heq, hT] at hself
    cases hself
  · rw [hpu]
    exact hnone
  · rw [hpu]
    intro heq
    rw [heq, hu3] at hnone
    cases hnone

/-- Claim C5 as stated is false: a non-2xx status below 400 (here 304)
raises no error at all, and any other 4xx/5xx raises the HTTP library
status error from `raise_for_status`, which lies outside the client
exception hierarchy. -/
theorem c5_non2xx_taxonomy_counterexample :
    (zones (netConst 304) 1 []).result = .ok ["z.com"] ∧
    (zones (netConst 500) 1 []).result = .error (.HTTPError 500) ∧
    (BunnyError.HTTPError 500).isBunnyClientException = false :=
  ⟨rfl, rfl, rfl⟩

/-- Claim C5 (amended): for each of the six operations, a 401 response
raises Unauthorized and a 404 raises Not-Found; any other 4xx/5xx raises
the HTTP library status error (not a client exception variant), and
non-2xx statuses below 400 raise nothing. -/
theorem c5_status_error_mapping (s : Nat) :
    (s = 401 →
      (zones (netConst s) 1 []).result = .error .Unauthorized ∧
      (zone (netConst s) 1 st1 "z.com").result = .error .Unauthorized ∧
      (zone_create (netConst s) st1 "w.com").result = .error .Unauthorized ∧
      (record_create (netConst s) 1 st1 "z.com"
        [("Type", PVal.vStr "A")]).result = .error .Unauthorized ∧
      (record_update (netConst s) 1 st1 "z.com" 7 []).result =
        .error .Unauthorized ∧
      (record_delete (netConst s) 1 st1 "z.com" 7).result =
        .error .Unauthorized) ∧
    (s = 404 →
      (zones (netConst s) 1 []).result = .error .NotFound ∧
      (zone (netConst s) 1 st1 "z.com").result = .error .NotFound ∧
      (zone_create (netConst s) st1 "w.com").result = .error .NotFound ∧
      (record_create (netConst s) 1 st1 "z.com"
        [("Type", PVal.vStr "A")]).result = .error .NotFound ∧
      (record_update (netConst s) 1 st1 "z.com" 7 []).result =
        .error .NotFound ∧
      (record_delete (netConst s) 1 st1 "z.com" 7).result =
        .error .NotFound) ∧
    (400 ≤ s → s < 600 → s ≠ 401 → s ≠ 404 →
      ((zones (netConst s) 1 []).result = .error (.HTTPError s) ∧
        (zone (netConst s) 1 st1 "z.com").result = .error (.HTTPError s) ∧
        (zone_create (netConst s) st1 "w.com").result =
          .error (.HTTPError s) ∧
        (record_create (netConst s) 1 st1 "z.com"
          [("Type", PVal.vStr "A")]).result = .error (.HTTPError s) ∧
        (record_update (netConst s) 1 st1 "z.com" 7 []).result =
          .error (.HTTPError s) ∧
        (record_delete (netConst s) 1 st1 "z.com" 7).result =
          .error (.HTTPError s)) ∧
      (BunnyError.HTTPError s).isBunnyClientException = false) := by
  refine ⟨?_, ?_, ?_⟩
  · intro h
    subst h
    exact ⟨rfl, rfl, rfl, rfl, rfl, rfl⟩
  · intro h
    subst h
    exact ⟨rfl, rfl, rfl, rfl, rfl, rfl⟩
  · intro h4 h6 hn1 hn4
    have hdr : ∀ req, doRequest (netConst s) req = .error (.HTTPError s) := by
      intro req
      rw [doRequest_netConst, if_neg hn1, if_neg hn4, if_pos ⟨h4, h6⟩]
    have e1 : cache_zones (netConst s) 1 1 [] =
        ⟨.error (.HTTPError s), [], [listingReq 1]⟩ := by
      show cache_zones (netConst s) (0 + 1) 1 [] = _
      rw [cache_zones_succ, hdr]
    have hz : (zones (netConst s) 1 []).result = .error (.HTTPError s) := by
      rw [zones_empty_eq, e1]
    have hzc : (zone_create (netConst s) st1 "w.com").result =
        .error (.HTTPError s) := by
      rw [zone_create_eq, hdr]
    exact ⟨⟨hz, hdr _, hzc, hdr _, hdr _, hdr _⟩, rfl⟩

/-- Witness for the amended claim C5 at statuses 401, 404 and 500. -/
theorem c5_status_error_mapping_witness :
    ((zones (netConst 401) 1 []).result = .error .Unauthorized ∧
      (zone (netConst 401) 1 st1 "z.com").result = .error .Unauthorized ∧
      (zone_create (netConst 401) st1 "w.com").result =
        .error .Unauthorized ∧
      (record_create (netConst 401) 1 st1 "z.com"
        [("Type", PVal.vStr "A")]).result = .error .Unauthorized ∧
      (record_update (netConst 401) 1 st1 "z.com" 7 []).result =
        .error .Unauthorized ∧
      (record_delete (netConst 401) 1 st1 "z.com" 7).result =
        .error .Unauthorized) ∧
    ((zones (netConst 404) 1 []).result = .error .NotFound ∧
      (zone (netConst 404) 1 st1 "z.com").result = .error .NotFound ∧
      (zone_create (netConst 404) st1 "w.com").result = .error .NotFound ∧
      (record_create (netConst 404) 1 st1 "z.com"
        [("Type", PVal.vStr "A")]).result = .error .NotFound ∧
      (record_update (netConst 404) 1 st1 "z.com" 7 []).result =
        .error .NotFound ∧
      (record_delete (netConst 404) 1 st1 "z.com" 7).result =
        .error .NotFound) ∧
    (((zones (netConst 500) 1 []).result = .error (.HTTPError 500) ∧
      (zone (netConst 500) 1 st1 "z.com").result = .error (.HTTPError 500) ∧
      (zone_create (netConst 500) st1 "w.com").result =
        .error (.HTTPError 500) ∧
      (record_create (netConst 500) 1 st1 "z.com"
        [("Type", PVal.vStr "A")]).result = .error (.HTTPError 500) ∧
      (record_update (netConst 500) 1 st1 "z.com" 7 []).result =
        .error (.HTTPError 500) ∧
      (record_delete (netConst 500) 1 st1 "z.com" 7).result =
        .error (.HTTPError 500)) ∧
      (BunnyError.HTTPError 500).isBunnyClientException = false) :=
  ⟨(c5_status_error_mapping 401).1 rfl,
    (c5_status_error_mapping 404).2.1 rfl,
    (c5_status_error_mapping 500).2.2 (by decide) (by decide) (by decide)
      (by decide)⟩

/-- Witness for claim C10 at concrete create and update payloads. -/
theorem c10_payload_mutation_witness :
    (record_create netOk 5 st1 "z.com"
        [("Type", PVal.vStr "A"), ("Value", PVal.vStr "x")]).payload =
      dictSet [("Type", PVal.vStr "A"), ("Value", PVal.vStr "x")] "Type"
        (PVal.vInt 0) ∧
    (record_create netOk 5 st1 "z.com"
        [("Type", PVal.vStr "A"), ("Value", PVal.vStr "x")]).payload ≠
      [("Type", PVal.vStr "A"), ("Value", PVal.vStr "x")] ∧
    (record_update netOk 5 st1 "z.com" 9
        [("Name", PVal.vNone), ("Ttl", PVal.vInt 60)]).payload =
      dictPop (dictPop [("Name", PVal.vNone), ("Ttl", PVal.vInt 60)] "Name")
        "Type" ∧
    dictGet (record_update netOk 5 st1 "z.com" 9
        [("Name", PVal.vNone), ("Ttl", PVal.vInt 60)]).payload "Name" =
      none ∧
    (record_update netOk 5 st1 "z.com" 9
        [("Name", PVal.vNone), ("Ttl", PVal.vInt 60)]).payload ≠
      [("Name", PVal.vNone), ("Ttl", PVal.vInt 60)] :=
  c10_payload_mutation netOk 5 st1 "z.com" 1 9
    [("Type", PVal.vStr "A"), ("Value", PVal.vStr "x")]
    [("Name", PVal.vNone), ("Ttl", PVal.vInt 60)] "A" 0
    (by decide) (by decide) (by decide) (by decide) (by decide) (by decide)
    (by decide) (by decide) (by decide)

end Bunny
